import Mathlib

/-!
Verification development for the PIN-gated credential vault
(`src/utils/auth.py`, `src/auth_gate.py`, `src/ui/components.py`).

The Python functions are shallowly embedded: bytes are `List Nat`
(entries below 256), Python `str` is `String`, JSON values are the
inductive `JVal`, the on-disk store is the inductive `Disk`, and
Python exceptions are the `Except PyErr` monad.  Randomness
(`secrets.token_bytes`, `secrets.randbelow`) is passed in as an
explicit argument.
-/

set_option maxRecDepth 4096

/-! ### Base64 (`base64.b64encode` / `base64.b64decode` on valid input) -/

def b64Alphabet : List Char :=
  "ABCDEFGHIJKLMNOPQRSTUVWXYZabcdefghijklmnopqrstuvwxyz0123456789+/".data

/-- Sextet value to base64 character. -/
def b64Char (n : Nat) : Char := b64Alphabet.getD n 'A'

/-- Base64 character back to its sextet value (`none` off the alphabet). -/
def b64Val (c : Char) : Option Nat :=
  go b64Alphabet 0
where
  go : List Char → Nat → Option Nat
    | [], _ => none
    | x :: xs, i => if x = c then some i else go xs (i + 1)

/-- Encode a byte list into base64 characters, three bytes per quad. -/
def b64Chunks : List Nat → List Char
  | [] => []
  | [a] => [b64Char (a / 4), b64Char (a % 4 * 16), '=', '=']
  | [a, b] => [b64Char (a / 4), b64Char (a % 4 * 16 + b / 16), b64Char (b % 16 * 4), '=']
  | a :: b :: c :: rest =>
      b64Char (a / 4) :: b64Char (a % 4 * 16 + b / 16) ::
      b64Char (b % 16 * 4 + c / 64) :: b64Char (c % 64) :: b64Chunks rest

def b64encode (bs : List Nat) : String := String.mk (b64Chunks bs)

/-- Decode base64 characters; `none` models `binascii.Error`. -/
def b64DecChunks : List Char → Option (List Nat)
  | [] => some []
  | c1 :: c2 :: c3 :: c4 :: rest =>
      if rest = [] ∧ c3 = '=' ∧ c4 = '=' then
        match b64Val c1, b64Val c2 with
        | some s1, some s2 => some [s1 * 4 + s2 / 16]
        | _, _ => none
      else if rest = [] ∧ c4 = '=' then
        match b64Val c1, b64Val c2, b64Val c3 with
        | some s1, some s2, some s3 => some [s1 * 4 + s2 / 16, s2 % 16 * 16 + s3 / 4]
        | _, _, _ => none
      else
        match b64Val c1, b64Val c2, b64Val c3, b64Val c4, b64DecChunks rest with
        | some s1, some s2, some s3, some s4, some bs =>
            some ((s1 * 4 + s2 / 16) :: (s2 % 16 * 16 + s3 / 4) :: (s3 % 4 * 64 + s4) :: bs)
        | _, _, _, _, _ => none
  | _ => none

def b64decode (s : String) : Option (List Nat) := b64DecChunks s.data

theorem b64Val_b64Char (n : Nat) (h : n < 64) : b64Val (b64Char n) = some n := by
  have : ∀ m : Fin 64, b64Val (b64Char m.val) = some m.val := by decide
  exact this ⟨n, h⟩

theorem b64Char_ne_pad (n : Nat) : b64Char n ≠ '=' := by
  rcases Nat.lt_or_ge n 64 with h | h
  · have : ∀ m : Fin 64, b64Char m.val ≠ '=' := by decide
    exact this ⟨n, h⟩
  · have hlen : b64Alphabet.length = 64 := by decide
    unfold b64Char
    rw [List.getD_eq_default _ _ (by omega)]
    decide

/-- Decoding inverts encoding on genuine byte lists. -/
theorem b64DecChunks_b64Chunks : ∀ bs : List Nat, (∀ b ∈ bs, b < 256) →
    b64DecChunks (b64Chunks bs) = some bs
  | [], _ => rfl
  | [a], h => by
      have ha : a < 256 := h a (by simp)
      have h1 : a / 4 * 4 + a % 4 * 16 / 16 = a := by omega
      simp [b64Chunks, b64DecChunks, b64Val_b64Char (a / 4) (by omega : a / 4 < 64),
        b64Val_b64Char (a % 4 * 16) (by omega : a % 4 * 16 < 64), h1]
      omega
  | [a, b], h => by
      have ha : a < 256 := h a (by simp)
      have hb : b < 256 := h b (by simp)
      have hne : b64Char (b % 16 * 4) ≠ '=' := b64Char_ne_pad _
      have h1 : a / 4 * 4 + (a % 4 * 16 + b / 16) / 16 = a := by omega
      have h2 : (a % 4 * 16 + b / 16) % 16 * 16 + b % 16 * 4 / 4 = b := by omega
      simp [b64Chunks, b64DecChunks, hne,
        b64Val_b64Char (a / 4) (by omega : a / 4 < 64),
        b64Val_b64Char (a % 4 * 16 + b / 16) (by omega : a % 4 * 16 + b / 16 < 64),
        b64Val_b64Char (b % 16 * 4) (by omega : b % 16 * 4 < 64), h1, h2]
      omega
  | a :: b :: c :: rest, h => by
      have ha : a < 256 := h a (by simp)
      have hb : b < 256 := h b (by simp)
      have hc : c < 256 := h c (by simp)
      have ih := b64DecChunks_b64Chunks rest (fun x hx => h x (by simp [hx]))
      have hne4 : b64Char (c % 64) ≠ '=' := b64Char_ne_pad _
      have h1 : a / 4 * 4 + (a % 4 * 16 + b / 16) / 16 = a := by omega
      have h2 : (a % 4 * 16 + b / 16) % 16 * 16 + (b % 16 * 4 + c / 64) / 4 = b := by omega
      have h3 : (b % 16 * 4 + c / 64) % 4 * 64 + c % 64 = c := by omega
      simp [b64Chunks, b64DecChunks, hne4, ih,
        b64Val_b64Char (a / 4) (by omega : a / 4 < 64),
        b64Val_b64Char (a % 4 * 16 + b / 16) (by omega : a % 4 * 16 + b / 16 < 64),
        b64Val_b64Char (b % 16 * 4 + c / 64) (by omega : b % 16 * 4 + c / 64 < 64),
        b64Val_b64Char (c % 64) (by omega : c % 64 < 64), h1, h2, h3]

theorem b64decode_b64encode (bs : List Nat) (h : ∀ b ∈ bs, b < 256) :
    b64decode (b64encode bs) = some bs :=
  b64DecChunks_b64Chunks bs h

theorem b64encode_ne_empty (bs : List Nat) (h : bs ≠ []) : b64encode bs ≠ "" := by
  intro hc
  have hdata : b64Chunks bs = [] := congrArg String.data hc
  match bs, h with
  | [a], _ => simp [b64Chunks] at hdata
  | [a, b], _ => simp [b64Chunks] at hdata
  | a :: b :: c :: rest, _ => simp [b64Chunks] at hdata

/-! ### UTF-8 encoding of a Python `str` (`pin.encode("utf-8")`) -/

def utf8Char (c : Char) : List Nat :=
  let n := c.toNat
  if n < 0x80 then [n]
  else if n < 0x800 then [0xC0 + n / 64, 0x80 + n % 64]
  else if n < 0x10000 then [0xE0 + n / 4096, 0x80 + n / 64 % 64, 0x80 + n % 64]
  else [0xF0 + n / 262144, 0x80 + n / 4096 % 64, 0x80 + n / 64 % 64, 0x80 + n % 64]

def utf8Encode (s : String) : List Nat := s.data.flatMap utf8Char

/-! ### SHA-256 (`hashlib`), on byte lists -/

def w32 (n : Nat) : Nat := n % 4294967296

def add32 (a b : Nat) : Nat := (a + b) % 4294967296

def rotr32 (n x : Nat) : Nat := w32 ((x >>> n) ||| (x <<< (32 - n)))

structure Sha256State where
  a : Nat
  b : Nat
  c : Nat
  d : Nat
  e : Nat
  f : Nat
  g : Nat
  h : Nat

def sha256InitState : Sha256State :=
  ⟨1779033703, 3144134277, 1013904242, 2773480762, 1359893119, 2600822924, 528734635, 1541459225⟩

def sha256K : List Nat :=
  [1116352408, 1899447441, 3049323471, 3921009573,
   961987163, 1508970993, 2453635748, 2870763221,
   3624381080, 310598401, 607225278, 1426881987,
   1925078388, 2162078206, 2614888103, 3248222580,
   3835390401, 4022224774, 264347078, 604807628,
   770255983, 1249150122, 1555081692, 1996064986,
   2554220882, 2821834349, 2952996808, 3210313671,
   3336571891, 3584528711, 113926993, 338241895,
   666307205, 773529912, 1294757372, 1396182291,
   1695183700, 1986661051, 2177026350, 2456956037,
   2730485921, 2820302411, 3259730800, 3345764771,
   3516065817, 3600352804, 4094571909, 275423344,
   430227734, 506948616, 659060556, 883997877,
   958139571, 1322822218, 1537002063, 1747873779,
   1955562222, 2024104815, 2227730452, 2361852424,
   2428436474, 2756734187, 3204031479, 3329325298]

/-- Append the `0x80` marker, zero padding and the 64-bit big-endian bit length. -/
def sha256Pad (msg : List Nat) : List Nat :=
  let L := msg.length
  let k := (119 - L % 64) % 64
  let bits := L * 8
  msg ++ 0x80 :: List.replicate k 0 ++
    [(bits >>> 56) % 256, (bits >>> 48) % 256, (bits >>> 40) % 256, (bits >>> 32) % 256,
     (bits >>> 24) % 256, (bits >>> 16) % 256, (bits >>> 8) % 256, bits % 256]

def chunks64 : List Nat → List (List Nat)
  | [] => []
  | x :: xs => ((x :: xs).take 64) :: chunks64 ((x :: xs).drop 64)
termination_by l => l.length
decreasing_by simp; omega

/-- Four big-endian bytes per 32-bit word. -/
def bytesToWords : List Nat → List Nat
  | a :: b :: c :: d :: rest => (((a * 256 + b) * 256 + c) * 256 + d) :: bytesToWords rest
  | _ => []

def ssig0 (x : Nat) : Nat := rotr32 7 x ^^^ rotr32 18 x ^^^ (x >>> 3)

def ssig1 (x : Nat) : Nat := rotr32 17 x ^^^ rotr32 19 x ^^^ (x >>> 10)

def bsig0 (x : Nat) : Nat := rotr32 2 x ^^^ rotr32 13 x ^^^ rotr32 22 x

def bsig1 (x : Nat) : Nat := rotr32 6 x ^^^ rotr32 11 x ^^^ rotr32 25 x

def chFn (x y z : Nat) : Nat := (x &&& y) ^^^ ((x ^^^ 0xFFFFFFFF) &&& z)

def majFn (x y z : Nat) : Nat := (x &&& y) ^^^ (x &&& z) ^^^ (y &&& z)

/-- Extend the 16 message words to 64 schedule words. -/
def extendSched : Nat → Array Nat → Array Nat
  | 0, w => w
  | n + 1, w =>
      let t := w.size
      extendSched n (w.push (add32 (add32 (ssig1 (w.getD (t - 2) 0)) (w.getD (t - 7) 0))
        (add32 (ssig0 (w.getD (t - 15) 0)) (w.getD (t - 16) 0))))

def sha256Round (s : Sha256State) (kw : Nat × Nat) : Sha256State :=
  let t1 := add32 s.h (add32 (bsig1 s.e) (add32 (chFn s.e s.f s.g) (add32 kw.1 kw.2)))
  let t2 := add32 (bsig0 s.a) (majFn s.a s.b s.c)
  ⟨add32 t1 t2, s.a, s.b, s.c, add32 s.d t1, s.e, s.f, s.g⟩

def sha256Compress (st : Sha256State) (block : List Nat) : Sha256State :=
  let w := (extendSched 48 (Array.mk (bytesToWords block))).toList
  let r := (sha256K.zip w).foldl sha256Round st
  ⟨add32 st.a r.a, add32 st.b r.b, add32 st.c r.c, add32 st.d r.d,
   add32 st.e r.e, add32 st.f r.f, add32 st.g r.g, add32 st.h r.h⟩

/-- Serialize the final state to 32 big-endian digest bytes. -/
def sha256Out (s : Sha256State) : List Nat :=
  [(s.a >>> 24) % 256, (s.a >>> 16) % 256, (s.a >>> 8) % 256, s.a % 256,
   (s.b >>> 24) % 256, (s.b >>> 16) % 256, (s.b >>> 8) % 256, s.b % 256,
   (s.c >>> 24) % 256, (s.c >>> 16) % 256, (s.c >>> 8) % 256, s.c % 256,
   (s.d >>> 24) % 256, (s.d >>> 16) % 256, (s.d >>> 8) % 256, s.d % 256,
   (s.e >>> 24) % 256, (s.e >>> 16) % 256, (s.e >>> 8) % 256, s.e % 256,
   (s.f >>> 24) % 256, (s.f >>> 16) % 256, (s.f >>> 8) % 256, s.f % 256,
   (s.g >>> 24) % 256, (s.g >>> 16) % 256, (s.g >>> 8) % 256, s.g % 256,
   (s.h >>> 24) % 256, (s.h >>> 16) % 256, (s.h >>> 8) % 256, s.h % 256]

def sha256 (msg : List Nat) : List Nat :=
  sha256Out ((chunks64 (sha256Pad msg)).foldl sha256Compress sha256InitState)

theorem sha256_length (msg : List Nat) : (sha256 msg).length = 32 := rfl

/-! ### HMAC-SHA256 and PBKDF2 (`hashlib.pbkdf2_hmac("sha256", ...)`) -/

def hmacSha256 (key msg : List Nat) : List Nat :=
  let k0 := if key.length > 64 then sha256 key else key
  let kp := k0 ++ List.replicate (64 - k0.length) 0
  let ipad := kp.map (fun b => b ^^^ 0x36)
  let opad := kp.map (fun b => b ^^^ 0x5C)
  sha256 (opad ++ sha256 (ipad ++ msg))

theorem hmacSha256_length (key msg : List Nat) : (hmacSha256 key msg).length = 32 := rfl

/-- Iterate `U_j := HMAC(pw, U_{j-1})` xoring into the accumulator. -/
def pbkdf2Loop : Nat → List Nat → List Nat → List Nat → List Nat
  | 0, _, _, acc => acc
  | n + 1, pw, u, acc =>
      let u' := hmacSha256 pw u
      pbkdf2Loop n pw u' (List.zipWith (fun a b => a ^^^ b) acc u')

def pbkdf2Block (pw salt : List Nat) (c i : Nat) : List Nat :=
  let u1 := hmacSha256 pw (salt ++ [(i >>> 24) % 256, (i >>> 16) % 256, (i >>> 8) % 256, i % 256])
  pbkdf2Loop (c - 1) pw u1 u1

def pbkdf2HmacSha256 (pw salt : List Nat) (c dkLen : Nat) : List Nat :=
  (((List.range ((dkLen + 31) / 32)).map (fun i => pbkdf2Block pw salt c (i + 1))).flatten).take dkLen

theorem pbkdf2Loop_length (n : Nat) : ∀ pw u acc : List Nat, acc.length = 32 →
    (pbkdf2Loop n pw u acc).length = 32 := by
  induction n with
  | zero => intro pw u acc h; exact h
  | succ m ih =>
      intro pw u acc h
      simp only [pbkdf2Loop]
      exact ih pw _ _ (by simp [List.length_zipWith, h, hmacSha256_length])

theorem pbkdf2Block_length (pw salt : List Nat) (c i : Nat) :
    (pbkdf2Block pw salt c i).length = 32 :=
  pbkdf2Loop_length (c - 1) pw _ _ (hmacSha256_length pw _)

theorem pbkdf2_32_length (pw salt : List Nat) (c : Nat) :
    (pbkdf2HmacSha256 pw salt c 32).length = 32 := by
  show ((((List.range 1).map (fun i => pbkdf2Block pw salt c (i + 1))).flatten).take 32).length = 32
  simp [List.range_succ, pbkdf2Block_length]

theorem pbkdf2_32_ne_nil (pw salt : List Nat) (c : Nat) :
    pbkdf2HmacSha256 pw salt c 32 ≠ [] := by
  intro h
  have := pbkdf2_32_length pw salt c
  rw [h] at this
  simp at this

/-! ### JSON values, Python dict semantics, the on-disk store -/

/-- A JSON value as produced by `json.load` (numbers as exact rationals). -/
inductive JVal where
  | jnull : JVal
  | jbool : Bool → JVal
  | jnum : ℚ → JVal
  | jstr : String → JVal
  | jarr : List JVal → JVal
  | jobj : List (String × JVal) → JVal
deriving Repr

/-- Python exceptions that the embedded code can raise. -/
inductive PyErr where
  | attributeError : PyErr
  | typeError : PyErr
  | valueError : PyErr
  | binasciiError : PyErr
deriving Repr, DecidableEq

/-- `d.get(k)` on a Python dict (first matching key). -/
def dget : List (String × JVal) → String → Option JVal
  | [], _ => none
  | (k, v) :: t, key => if k = key then some v else dget t key

/-- `d[k] = v` on a Python dict: replace in place, else append. -/
def dset : List (String × JVal) → String → JVal → List (String × JVal)
  | [], k, v => [(k, v)]
  | (k', v') :: t, k, v => if k' = k then (k, v) :: t else (k', v') :: dset t k v

theorem dget_dset_self (l : List (String × JVal)) (k : String) (v : JVal) :
    dget (dset l k v) k = some v := by
  induction l with
  | nil => simp [dget, dset]
  | cons p t ih =>
      obtain ⟨k', v'⟩ := p
      by_cases h : k' = k
      · simp [dget, dset, h]
      · simp [dget, dset, h, ih]

theorem dget_dset_ne (l : List (String × JVal)) (k k' : String) (v : JVal) (h : k' ≠ k) :
    dget (dset l k v) k' = dget l k' := by
  have hk : k ≠ k' := Ne.symm h
  induction l with
  | nil => simp [dget, dset, hk]
  | cons p t ih =>
      obtain ⟨k0, v0⟩ := p
      by_cases h0 : k0 = k
      · subst h0
        simp [dget, dset, hk]
      · simp only [dset, if_neg h0, dget]
        by_cases h1 : k0 = k'
        · simp [h1]
        · simp [h1, ih]

/-- Python truthiness of a JSON value. -/
def truthy : JVal → Bool
  | .jnull => false
  | .jbool b => b
  | .jnum q => decide (q ≠ 0)
  | .jstr s => decide (s ≠ "")
  | .jarr xs => !xs.isEmpty
  | .jobj l => !l.isEmpty

def optTruthy : Option JVal → Bool
  | none => false
  | some v => truthy v

/--
The observable state of the store file.  `open` + `json.load` either raises
`FileNotFoundError` (`missing`), raises another I/O error (`unreadable`),
raises `json.JSONDecodeError` (`invalid`), or yields a parsed JSON value
(`stored v`).
-/
inductive Disk where
  | missing : Disk
  | unreadable : Disk
  | invalid : Disk
  | stored : JVal → Disk
deriving Repr

/-- `_load_db`: any exception from open/parse degrades to `{}`. -/
def load_db : Disk → JVal
  | .missing => .jobj []
  | .unreadable => .jobj []
  | .invalid => .jobj []
  | .stored v => v

/-- `_save_db`: full-file overwrite with the serialized object. -/
def save_db (v : JVal) : Disk := .stored v

/-- `get_credentials`: `d.get` raises `AttributeError` when `_load_db` gave a non-dict. -/
def get_credentials (disk : Disk) : Except PyErr (Option JVal × Option JVal × Option JVal) :=
  match load_db disk with
  | .jobj d => .ok (dget d "api_key", dget d "pin_hash", dget d "pin_salt")
  | _ => .error .attributeError

/-- `_hash_pin`: PBKDF2-HMAC-SHA256 of the PIN with the decoded salt, base64-encoded. -/
def hash_pin (pin : String) (salt_b64 : String) : Except PyErr String :=
  match b64decode salt_b64 with
  | none => .error .binasciiError
  | some salt => .ok (b64encode (pbkdf2HmacSha256 (utf8Encode pin) salt 100000 32))

/-- String-against-JSON `==` as Python evaluates `_hash_pin(...) == pin_hash`. -/
def pyEqStr (h : String) : Option JVal → Bool
  | some (.jstr s) => h = s
  | _ => false

/-- `verify_pin` from `src/utils/auth.py` / `src/auth_gate.py`. -/
def verify_pin (pin : String) (disk : Disk) : Except PyErr Bool :=
  match get_credentials disk with
  | .error e => .error e
  | .ok (_, pin_hash, pin_salt) =>
      if optTruthy pin_hash && optTruthy pin_salt then
        match pin_salt with
        | some (.jstr s) =>
            match hash_pin pin s with
            | .ok h => .ok (pyEqStr h pin_hash)
            | .error e => .error e
        | some _ => .error .typeError
        | none => .ok false
      else .ok false

/-- `save_credentials`, with the 16 random salt bytes passed explicitly. -/
def save_credentials (api_key pin : String) (saltBytes : List Nat) (disk : Disk) :
    Except PyErr Disk :=
  let salt_b64 := b64encode saltBytes
  match hash_pin pin salt_b64 with
  | .error e => .error e
  | .ok pin_hash =>
      match load_db disk with
      | .jobj d =>
          .ok (save_db (.jobj (dset (dset (dset d "api_key" (.jstr api_key))
            "pin_hash" (.jstr pin_hash)) "pin_salt" (.jstr salt_b64))))
      | _ => .error .attributeError

/-- `set_api_key` from `src/utils/auth.py`. -/
def set_api_key (api_key : String) (disk : Disk) : Except PyErr Disk :=
  match load_db disk with
  | .jobj d => .ok (save_db (.jobj (dset d "api_key" (.jstr api_key))))
  | _ => .error .attributeError

/-- `clear_credentials`: overwrite the file with `{}`. -/
def clear_credentials (_disk : Disk) : Disk := save_db (.jobj [])

/-! ### Python string helpers (`str.strip`, `str.isdigit`, `f"{n:04d}"`) -/

def pySpaceChar (c : Char) : Bool :=
  decide (c = ' ' ∨ c = '\t' ∨ c = '\n' ∨ c = '\r' ∨ c.toNat = 11 ∨ c.toNat = 12 ∨
    c.toNat = 0x1C ∨ c.toNat = 0x1D ∨ c.toNat = 0x1E ∨ c.toNat = 0x1F ∨
    c.toNat = 0x85 ∨ c.toNat = 0xA0 ∨ c.toNat = 0x1680 ∨
    (0x2000 ≤ c.toNat ∧ c.toNat ≤ 0x200A) ∨ c.toNat = 0x2028 ∨ c.toNat = 0x2029 ∨
    c.toNat = 0x202F ∨ c.toNat = 0x205F ∨ c.toNat = 0x3000)

/-- Python `str.strip()`. -/
def pyStrip (s : String) : String :=
  String.mk (((s.data.dropWhile pySpaceChar).reverse.dropWhile pySpaceChar).reverse)

/--
The exact set of characters CPython's `str.isdigit` accepts (every
character whose Unicode numeric type is Decimal or Digit), as
inclusive codepoint ranges: the decimal-digit blocks of all planes
together with the digit-valued superscripts, subscripts, circled,
parenthesized and dingbat digits.
-/
def pyDigitRanges : List (Nat × Nat) :=
  [(0x30, 0x39), (0xB2, 0xB3), (0xB9, 0xB9), (0x660, 0x669),
   (0x6F0, 0x6F9), (0x7C0, 0x7C9), (0x966, 0x96F), (0x9E6, 0x9EF),
   (0xA66, 0xA6F), (0xAE6, 0xAEF), (0xB66, 0xB6F), (0xBE6, 0xBEF),
   (0xC66, 0xC6F), (0xCE6, 0xCEF), (0xD66, 0xD6F), (0xDE6, 0xDEF),
   (0xE50, 0xE59), (0xED0, 0xED9), (0xF20, 0xF29), (0x1040, 0x1049),
   (0x1090, 0x1099), (0x1369, 0x1371), (0x17E0, 0x17E9), (0x1810, 0x1819),
   (0x1946, 0x194F), (0x19D0, 0x19DA), (0x1A80, 0x1A89), (0x1A90, 0x1A99),
   (0x1B50, 0x1B59), (0x1BB0, 0x1BB9), (0x1C40, 0x1C49), (0x1C50, 0x1C59),
   (0x2070, 0x2070), (0x2074, 0x2079), (0x2080, 0x2089), (0x2460, 0x2468),
   (0x2474, 0x247C), (0x2488, 0x2490), (0x24EA, 0x24EA), (0x24F5, 0x24FD),
   (0x24FF, 0x24FF), (0x2776, 0x277E), (0x2780, 0x2788), (0x278A, 0x2792),
   (0xA620, 0xA629), (0xA8D0, 0xA8D9), (0xA900, 0xA909), (0xA9D0, 0xA9D9),
   (0xA9F0, 0xA9F9), (0xAA50, 0xAA59), (0xABF0, 0xABF9), (0xFF10, 0xFF19),
   (0x104A0, 0x104A9), (0x10A40, 0x10A43), (0x10D30, 0x10D39), (0x10E60, 0x10E68),
   (0x11052, 0x1105A), (0x11066, 0x1106F), (0x110F0, 0x110F9), (0x11136, 0x1113F),
   (0x111D0, 0x111D9), (0x112F0, 0x112F9), (0x11450, 0x11459), (0x114D0, 0x114D9),
   (0x11650, 0x11659), (0x116C0, 0x116C9), (0x11730, 0x11739), (0x118E0, 0x118E9),
   (0x11950, 0x11959), (0x11C50, 0x11C59), (0x11D50, 0x11D59), (0x11DA0, 0x11DA9),
   (0x16A60, 0x16A69), (0x16AC0, 0x16AC9), (0x16B50, 0x16B59), (0x1D7CE, 0x1D7FF),
   (0x1E140, 0x1E149), (0x1E2F0, 0x1E2F9), (0x1E950, 0x1E959), (0x1F100, 0x1F10A),
   (0x1FBF0, 0x1FBF9)]

def pyIsDigitChar (c : Char) : Bool :=
  pyDigitRanges.any (fun r => decide (r.1 ≤ c.toNat ∧ c.toNat ≤ r.2))

/-- Python `str.isdigit()`. -/
def pyIsdigit (s : String) : Bool := !s.data.isEmpty && s.data.all pyIsDigitChar

/-- Decimal representation of a natural number. -/
def decRepr (n : Nat) : String := String.mk (go n [])
where
  go (n : Nat) (acc : List Char) : List Char :=
    if h : n < 10 then Char.ofNat (48 + n) :: acc
    else go (n / 10) (Char.ofNat (48 + n % 10) :: acc)
  termination_by n
  decreasing_by exact Nat.div_lt_self (by omega) (by omega)

/-- The f-string `f"{n:04d}"`: decimal, left-padded with zeros to width 4. -/
def formatPin (n : Nat) : String :=
  let s := decRepr n
  if s.length < 4 then String.mk (List.replicate (4 - s.length) '0') ++ s else s

/-- The canonical four-digit zero-padded form. -/
def pinCanon (n : Nat) : String :=
  String.mk [Char.ofNat (48 + n / 1000 % 10), Char.ofNat (48 + n / 100 % 10),
             Char.ofNat (48 + n / 10 % 10), Char.ofNat (48 + n % 10)]

/-! ### The key validator (`check_api_key_balance`) -/

def digitsToNat (cs : List Char) : Option Nat :=
  match cs with
  | [] => none
  | _ => if cs.all (fun c => decide ('0' ≤ c ∧ c ≤ '9')) then
           some (cs.foldl (fun a c => a * 10 + (c.toNat - 48)) 0)
         else none

def splitAtExp : List Char → List Char × Option (List Char)
  | [] => ([], none)
  | c :: t =>
      if c = 'e' ∨ c = 'E' then ([], some t)
      else
        let (m, e) := splitAtExp t
        (c :: m, e)

def parseSign : List Char → ℤ × List Char
  | '+' :: t => (1, t)
  | '-' :: t => (-1, t)
  | t => (1, t)

def parseMant (cs : List Char) : Option ℚ :=
  let intPart := cs.takeWhile (fun c => decide (c ≠ '.'))
  match cs.dropWhile (fun c => decide (c ≠ '.')) with
  | [] => (digitsToNat intPart).map (fun n => (n : ℚ))
  | _ :: frac =>
      if frac.any (fun c => decide (c = '.')) then none
      else if intPart = [] ∧ frac = [] then none
      else
        let ip := if intPart = [] then some 0 else digitsToNat intPart
        let fp := if frac = [] then some 0 else digitsToNat frac
        match ip, fp with
        | some i, some f => some ((i : ℚ) + (f : ℚ) / ((10 : ℚ) ^ frac.length))
        | _, _ => none

/-- Python `float(str)` on ordinary decimal literals. -/
def parseFloatStr (s : String) : Option ℚ :=
  let cs := (pyStrip s).data
  let (sgn, cs1) := parseSign cs
  let (mant, ex) := splitAtExp cs1
  match parseMant mant with
  | none => none
  | some m =>
      match ex with
      | none => some ((sgn : ℚ) * m)
      | some ecs =>
          let (esgn, ecs1) := parseSign ecs
          match digitsToNat ecs1 with
          | none => none
          | some e => some ((sgn : ℚ) * m * (10 : ℚ) ^ (esgn * (e : ℤ)))

/-- Python `float(x)` on a JSON value. -/
def pyFloat : JVal → Except PyErr ℚ
  | .jnum q => .ok q
  | .jbool b => .ok (if b then 1 else 0)
  | .jstr s =>
      match parseFloatStr s with
      | some q => .ok q
      | none => .error .valueError
  | _ => .error .typeError

/-- `x.get(k, dflt)`: `AttributeError` when `x` is not a dict. -/
def pyGetDefault (v : JVal) (k : String) (dflt : JVal) : Except PyErr JVal :=
  match v with
  | .jobj d => .ok ((dget d k).getD dflt)
  | _ => .error .attributeError

/-- Rendering of `str(e)` for the modelled exceptions. -/
def pyErrMsg : PyErr → String
  | .attributeError => "AttributeError"
  | .typeError => "TypeError"
  | .valueError => "ValueError"
  | .binasciiError => "binascii.Error"

/--
The observable outcome of `requests.get`: either a raised
`requests.RequestException` (network failure) or a response.  `jsonBody`
is what `r.json()` does: a parsed value, or a raised
`requests.exceptions.JSONDecodeError` (a `RequestException` subclass)
carrying a message.
-/
structure HttpResp where
  status : Nat
  jsonBody : Except String JVal
  text : String

inductive ReqResult where
  | exc : String → ReqResult
  | resp : HttpResp → ReqResult

/-- `check_api_key_balance` from `src/auth_gate.py`. -/
def check_api_key_balance (r : ReqResult) : Bool × ℚ × String :=
  match r with
  | .exc m => (false, 0, "Ошибка сети: " ++ m)
  | .resp r =>
      if r.status = 401 ∨ r.status = 403 then (false, 0, "Неверный ключ OpenRouter")
      else if r.status = 429 then (false, 0, "Превышены лимиты. Попробуйте позже.")
      else if 400 ≤ r.status ∧ r.status < 600 then (false, 0, "HTTP ошибка: " ++ r.text)
      else
        match r.jsonBody with
        | .error m => (false, 0, "Ошибка сети: " ++ m)
        | .ok body =>
            match (do
              let dataV ← pyGetDefault body "data" (.jobj [])
              let tc ← pyFloat (← pyGetDefault dataV "total_credits" (.jnum 0))
              let tu ← pyFloat (← pyGetDefault dataV "total_usage" (.jnum 0))
              pure (tc, tu) : Except PyErr (ℚ × ℚ)) with
            | .ok (tc, tu) => (decide (tc - tu > 0), tc - tu, "")
            | .error e => (false, 0, "Непредвиденная ошибка: " ++ pyErrMsg e)

/-! ### The login card (`make_login_card` / `LoginCard`) -/

inductive Mode where
  | first : Mode
  | pin : Mode
deriving Repr, DecidableEq

structure GateState where
  mode : Mode
  disk : Disk

/-- Result of `on_check_click`: new state, the PIN dialog, the message line. -/
structure CheckOutcome where
  state : GateState
  shownPin : Option String
  msg : String

inductive LoginResult where
  | invalidFormat : LoginResult
  | wrongPin : LoginResult
  | success : Option JVal → LoginResult

/-- `on_check_click`, with the random draws passed explicitly. -/
def on_check_click (tf : String) (vr : ReqResult) (pinDraw : Nat) (saltBytes : List Nat)
    (g : GateState) : Except PyErr CheckOutcome :=
  let key := pyStrip tf
  if key = "" then .ok ⟨g, none, "Введите ключ OpenRouter"⟩
  else
    match check_api_key_balance vr with
    | (ok, _balance, err) =>
        if !ok then
          .ok ⟨g, none, if err = "" then "Недостаточный баланс или неверный ключ" else err⟩
        else
          let pin := formatPin pinDraw
          match save_credentials key pin saltBytes g.disk with
          | .error e => .error e
          | .ok disk' => .ok ⟨⟨.pin, disk'⟩, some pin, ""⟩

/-- `on_login_click`. -/
def on_login_click (tf : String) (g : GateState) : Except PyErr (GateState × LoginResult) :=
  let pin := pyStrip tf
  if pin.length ≠ 4 ∨ pyIsdigit pin = false then .ok (g, .invalidFormat)
  else
    match verify_pin pin g.disk with
    | .error e => .error e
    | .ok false => .ok (g, .wrongPin)
    | .ok true =>
        match get_credentials g.disk with
        | .error e => .error e
        | .ok (key, _, _) => .ok (g, .success key)

/-- `on_reset_click`. -/
def on_reset_click (g : GateState) : GateState := ⟨.first, clear_credentials g.disk⟩

theorem decRepr_go_lt10 (n : Nat) (h : n < 10) (acc : List Char) :
    decRepr.go n acc = Char.ofNat (48 + n) :: acc := by
  rw [decRepr.go.eq_def, dif_pos h]

theorem decRepr_go_ge10 (n : Nat) (h : ¬ n < 10) (acc : List Char) :
    decRepr.go n acc = decRepr.go (n / 10) (Char.ofNat (48 + n % 10) :: acc) := by
  rw [decRepr.go.eq_def, dif_neg h]

theorem formatPin_eq_pinCanon (n : Nat) (h : n < 10000) : formatPin n = pinCanon n := by
  rcases Nat.lt_or_ge n 10 with h1 | h1
  · have e1 : decRepr n = String.mk [Char.ofNat (48 + n)] := by
      unfold decRepr; rw [decRepr_go_lt10 n h1]
    have d0 : n / 1000 % 10 = 0 := by omega
    have d1 : n / 100 % 10 = 0 := by omega
    have d2 : n / 10 % 10 = 0 := by omega
    have d3 : n % 10 = n := by omega
    simp only [formatPin, pinCanon, e1, d0, d1, d2, d3]
    rfl
  rcases Nat.lt_or_ge n 100 with h2 | h2
  · have e1 : decRepr n = String.mk [Char.ofNat (48 + n / 10), Char.ofNat (48 + n % 10)] := by
      unfold decRepr
      rw [decRepr_go_ge10 n (by omega), decRepr_go_lt10 (n / 10) (by omega)]
    have d0 : n / 1000 % 10 = 0 := by omega
    have d1 : n / 100 % 10 = 0 := by omega
    have d2 : n / 10 % 10 = n / 10 := by omega
    simp only [formatPin, pinCanon, e1, d0, d1, d2]
    rfl
  rcases Nat.lt_or_ge n 1000 with h3 | h3
  · have e1 : decRepr n = String.mk [Char.ofNat (48 + n / 100),
        Char.ofNat (48 + n / 10 % 10), Char.ofNat (48 + n % 10)] := by
      unfold decRepr
      rw [decRepr_go_ge10 n (by omega), decRepr_go_ge10 (n / 10) (by omega),
        decRepr_go_lt10 (n / 10 / 10) (by omega)]
      have : n / 10 / 10 = n / 100 := by omega
      rw [this]
    have d0 : n / 1000 % 10 = 0 := by omega
    have d1 : n / 100 % 10 = n / 100 := by omega
    simp only [formatPin, pinCanon, e1, d0, d1]
    rfl
  · have e1 : decRepr n = String.mk [Char.ofNat (48 + n / 1000), Char.ofNat (48 + n / 100 % 10),
        Char.ofNat (48 + n / 10 % 10), Char.ofNat (48 + n % 10)] := by
      unfold decRepr
      rw [decRepr_go_ge10 n (by omega), decRepr_go_ge10 (n / 10) (by omega),
        decRepr_go_ge10 (n / 10 / 10) (by omega), decRepr_go_lt10 (n / 10 / 10 / 10) (by omega)]
      have ha : n / 10 / 10 / 10 = n / 1000 := by omega
      have hb : n / 10 / 10 % 10 = n / 100 % 10 := by omega
      rw [ha, hb]
    have d0 : n / 1000 % 10 = n / 1000 := by omega
    simp only [formatPin, pinCanon, e1, d0]
    rfl

theorem pinCanon_length (n : Nat) : (pinCanon n).length = 4 := rfl

theorem digitChar_ascii (m : Nat) (h : m < 10) :
    '0' ≤ Char.ofNat (48 + m) ∧ Char.ofNat (48 + m) ≤ '9' := by
  interval_cases m <;> exact ⟨by decide, by decide⟩

theorem pinCanon_ascii_digits (n : Nat) :
    ∀ c ∈ (pinCanon n).data, '0' ≤ c ∧ c ≤ '9' := by
  intro c hc
  simp only [pinCanon, List.mem_cons, List.not_mem_nil, or_false] at hc
  rcases hc with h | h | h | h <;> rw [h] <;>
    exact digitChar_ascii _ (Nat.mod_lt _ (by omega))

/-! ### The derived digest and the save/verify round trip -/

/-- The digest `_hash_pin` computes for a pin and raw salt bytes. -/
def derivedHash (pin : String) (bs : List Nat) : String :=
  b64encode (pbkdf2HmacSha256 (utf8Encode pin) bs 100000 32)

theorem hash_pin_valid_salt (pin : String) (bs : List Nat) (h : ∀ b ∈ bs, b < 256) :
    hash_pin pin (b64encode bs) = .ok (derivedHash pin bs) := by
  unfold hash_pin derivedHash
  rw [b64decode_b64encode bs h]

theorem derivedHash_ne_empty (pin : String) (bs : List Nat) : derivedHash pin bs ≠ "" :=
  b64encode_ne_empty _ (pbkdf2_32_ne_nil _ _ _)

/-- The record object written by `save_credentials`. -/
def savedRecord (key pin : String) (bs : List Nat) (d : List (String × JVal)) :
    List (String × JVal) :=
  dset (dset (dset d "api_key" (.jstr key)) "pin_hash" (.jstr (derivedHash pin bs)))
    "pin_salt" (.jstr (b64encode bs))

theorem save_credentials_eq (key pin : String) (bs : List Nat) (disk : Disk)
    (d : List (String × JVal)) (hload : load_db disk = .jobj d) (hbs : ∀ b ∈ bs, b < 256) :
    save_credentials key pin bs disk = .ok (.stored (.jobj (savedRecord key pin bs d))) := by
  unfold save_credentials
  simp only [hash_pin_valid_salt pin bs hbs, hload]
  rfl

theorem dget_savedRecord_api (key pin : String) (bs : List Nat) (d : List (String × JVal)) :
    dget (savedRecord key pin bs d) "api_key" = some (.jstr key) := by
  unfold savedRecord
  rw [dget_dset_ne _ _ _ _ (by decide), dget_dset_ne _ _ _ _ (by decide), dget_dset_self]

theorem dget_savedRecord_hash (key pin : String) (bs : List Nat) (d : List (String × JVal)) :
    dget (savedRecord key pin bs d) "pin_hash" = some (.jstr (derivedHash pin bs)) := by
  unfold savedRecord
  rw [dget_dset_ne _ _ _ _ (by decide), dget_dset_self]

theorem dget_savedRecord_salt (key pin : String) (bs : List Nat) (d : List (String × JVal)) :
    dget (savedRecord key pin bs d) "pin_salt" = some (.jstr (b64encode bs)) := by
  unfold savedRecord
  rw [dget_dset_self]

theorem dget_savedRecord_other (key pin : String) (bs : List Nat) (d : List (String × JVal))
    (k : String) (h1 : k ≠ "api_key") (h2 : k ≠ "pin_hash") (h3 : k ≠ "pin_salt") :
    dget (savedRecord key pin bs d) k = dget d k := by
  unfold savedRecord
  rw [dget_dset_ne _ _ _ _ h3, dget_dset_ne _ _ _ _ h2, dget_dset_ne _ _ _ _ h1]

theorem verify_pin_savedRecord (key pin : String) (bs : List Nat) (d : List (String × JVal))
    (hbs : ∀ b ∈ bs, b < 256) (hne : bs ≠ []) :
    verify_pin pin (.stored (.jobj (savedRecord key pin bs d))) = .ok true := by
  have hhash := dget_savedRecord_hash key pin bs d
  have hsalt := dget_savedRecord_salt key pin bs d
  unfold verify_pin
  simp only [get_credentials, load_db, hhash, hsalt]
  rw [show optTruthy (some (.jstr (derivedHash pin bs))) = true by
        simp [optTruthy, truthy, derivedHash_ne_empty pin bs],
      show optTruthy (some (.jstr (b64encode bs))) = true by
        simp [optTruthy, truthy, b64encode_ne_empty bs hne]]
  simp only [Bool.and_self, if_true]
  rw [hash_pin_valid_salt pin bs hbs]
  simp [pyEqStr]

/-! ### Claim theorems: the credential store (C5–C10) -/

/--
C5 counterexample: a store file holding valid JSON that is not an object
(here the array `[]`) makes `_load_db` return that non-empty value, and
`get_credentials` then raises `AttributeError` instead of returning a
triple, refuting "load returns an empty record and never raises" and
"get_credentials always returns a triple".
-/
theorem getCredentials_nonobject_store_counterexample :
    get_credentials (.stored (.jarr [])) = .error .attributeError ∧
    ∀ d, load_db (.stored (.jarr [])) ≠ .jobj d :=
  ⟨rfl, fun _ h => JVal.noConfusion h⟩

/--
C5 (amended): when the store file is missing, unreadable, or its content
fails to parse as JSON, `_load_db` returns the empty object and
`get_credentials` returns `(None, None, None)`; whenever the parsed
content is a JSON object, `get_credentials` returns the triple of its
credential fields.
-/
theorem loadDb_failure_yields_empty_record :
    (load_db .missing = .jobj [] ∧ load_db .unreadable = .jobj [] ∧
      load_db .invalid = .jobj []) ∧
    (get_credentials .missing = .ok (none, none, none) ∧
      get_credentials .unreadable = .ok (none, none, none) ∧
      get_credentials .invalid = .ok (none, none, none)) ∧
    (∀ l, get_credentials (.stored (.jobj l)) =
      .ok (dget l "api_key", dget l "pin_hash", dget l "pin_salt")) :=
  ⟨⟨rfl, rfl, rfl⟩, ⟨rfl, rfl, rfl⟩, fun _ => rfl⟩

/--
C6 (confirmed): for every prior store object `d`, `save_credentials`
writes back `d` with `api_key`, `pin_hash`, `pin_salt` all replaced in
the same write, and every other key of `d` unchanged.
-/
theorem saveCredentials_frame (key pin : String) (bs : List Nat) (disk : Disk)
    (d : List (String × JVal)) (hload : load_db disk = .jobj d)
    (hbs : ∀ b ∈ bs, b < 256) :
    save_credentials key pin bs disk = .ok (.stored (.jobj (savedRecord key pin bs d))) ∧
    dget (savedRecord key pin bs d) "api_key" = some (.jstr key) ∧
    dget (savedRecord key pin bs d) "pin_hash" = some (.jstr (derivedHash pin bs)) ∧
    dget (savedRecord key pin bs d) "pin_salt" = some (.jstr (b64encode bs)) ∧
    ∀ k, k ≠ "api_key" → k ≠ "pin_hash" → k ≠ "pin_salt" →
      dget (savedRecord key pin bs d) k = dget d k :=
  ⟨save_credentials_eq key pin bs disk d hload hbs,
   dget_savedRecord_api key pin bs d,
   dget_savedRecord_hash key pin bs d,
   dget_savedRecord_salt key pin bs d,
   fun k h1 h2 h3 => dget_savedRecord_other key pin bs d k h1 h2 h3⟩

theorem saveCredentials_frame_witness :
    load_db (.stored (.jobj [("theme", .jstr "dark")])) = .jobj [("theme", .jstr "dark")] ∧
    (∀ b ∈ ([7, 8, 9] : List Nat), b < 256) ∧
    dget (savedRecord "sk-test" "1234" [7, 8, 9] [("theme", .jstr "dark")]) "theme" =
      some (.jstr "dark") :=
  ⟨rfl, by decide,
   ((saveCredentials_frame "sk-test" "1234" [7, 8, 9] (.stored (.jobj [("theme", .jstr "dark")]))
      [("theme", .jstr "dark")] rfl (by decide)).2.2.2.2 "theme"
      (by decide) (by decide) (by decide)).trans rfl⟩

/--
C7 counterexample: `set_api_key` is a write operation of the store that
updates `api_key` alone, leaving the `pin_hash` and `pin_salt` of the
previous record in place — a partial-field update the claim rules out.
-/
theorem setApiKey_partial_update_counterexample :
    set_api_key "new-key" (.stored (.jobj
      [("api_key", .jstr "old-key"), ("pin_hash", .jstr "H"), ("pin_salt", .jstr "S")])) =
    .ok (.stored (.jobj
      [("api_key", .jstr "new-key"), ("pin_hash", .jstr "H"), ("pin_salt", .jstr "S")])) := rfl

/--
C7 (amended): `save_credentials` and `clear_credentials` replace the full
credential record — the former writes all three fields in the same write,
the latter removes all three — but the store additionally exposes
`set_api_key`, which updates `api_key` individually and leaves `pin_hash`
and `pin_salt` from the previous record in place.
-/
theorem storeWrites_full_record (key pin : String) (bs : List Nat) (disk : Disk)
    (d : List (String × JVal)) (hload : load_db disk = .jobj d)
    (hbs : ∀ b ∈ bs, b < 256) :
    (save_credentials key pin bs disk = .ok (.stored (.jobj (savedRecord key pin bs d))) ∧
      dget (savedRecord key pin bs d) "api_key" = some (.jstr key) ∧
      dget (savedRecord key pin bs d) "pin_hash" = some (.jstr (derivedHash pin bs)) ∧
      dget (savedRecord key pin bs d) "pin_salt" = some (.jstr (b64encode bs))) ∧
    (∀ dsk, get_credentials (clear_credentials dsk) = .ok (none, none, none)) ∧
    (set_api_key key disk = .ok (.stored (.jobj (dset d "api_key" (.jstr key)))) ∧
      dget (dset d "api_key" (.jstr key)) "api_key" = some (.jstr key) ∧
      ∀ k, k ≠ "api_key" → dget (dset d "api_key" (.jstr key)) k = dget d k) := by
  refine ⟨⟨save_credentials_eq key pin bs disk d hload hbs,
    dget_savedRecord_api key pin bs d, dget_savedRecord_hash key pin bs d,
    dget_savedRecord_salt key pin bs d⟩, fun _ => rfl, ?_, dget_dset_self d "api_key" _,
    fun k hk => dget_dset_ne d "api_key" k _ hk⟩
  unfold set_api_key
  rw [hload]
  rfl

theorem storeWrites_full_record_witness :
    load_db (.stored (.jobj [("pin_hash", .jstr "H")])) = .jobj [("pin_hash", .jstr "H")] ∧
    (∀ b ∈ ([255] : List Nat), b < 256) ∧
    set_api_key "sk-new" (.stored (.jobj [("pin_hash", .jstr "H")])) =
      .ok (.stored (.jobj (dset [("pin_hash", .jstr "H")] "api_key" (.jstr "sk-new")))) :=
  ⟨rfl, by decide,
   (storeWrites_full_record "sk-new" "0000" [255] (.stored (.jobj [("pin_hash", .jstr "H")]))
      [("pin_hash", .jstr "H")] rfl (by decide)).2.2.1⟩

/--
C8 (confirmed): after `clear_credentials` the store loads as the empty
object, `get_credentials` reports all three fields absent, and clearing
twice leaves exactly the state clearing once leaves.
-/
theorem clearCredentials_empty_idempotent :
    ∀ disk : Disk,
      load_db (clear_credentials disk) = .jobj [] ∧
      get_credentials (clear_credentials disk) = .ok (none, none, none) ∧
      clear_credentials (clear_credentials disk) = clear_credentials disk :=
  fun _ => ⟨rfl, rfl, rfl⟩

/--
C9 (confirmed): whatever pin is submitted, a stored record without a
`pin_hash` or without a `pin_salt` — in particular one holding only
`api_key` — makes `verify_pin` return `False`.
-/
theorem verifyPin_missing_fields_false (pin : String) (disk : Disk)
    (d : List (String × JVal)) (hload : load_db disk = .jobj d)
    (h : dget d "pin_hash" = none ∨ dget d "pin_salt" = none) :
    verify_pin pin disk = .ok false := by
  have hget : get_credentials disk =
      .ok (dget d "api_key", dget d "pin_hash", dget d "pin_salt") := by
    unfold get_credentials; rw [hload]
  unfold verify_pin
  rw [hget]
  rcases h with h | h <;> simp [h, optTruthy]

theorem verifyPin_missing_fields_false_witness :
    load_db (.stored (.jobj [("api_key", .jstr "sk-test")])) =
      .jobj [("api_key", .jstr "sk-test")] ∧
    dget [("api_key", .jstr "sk-test")] "pin_hash" = none ∧
    verify_pin "1234" (.stored (.jobj [("api_key", .jstr "sk-test")])) = .ok false :=
  ⟨rfl, rfl,
   verifyPin_missing_fields_false "1234" (.stored (.jobj [("api_key", .jstr "sk-test")]))
     [("api_key", .jstr "sk-test")] rfl (Or.inl rfl)⟩

/--
C10 (confirmed): `clear_credentials` overwrites the whole file with `{}`,
so a key present in the prior store object and distinct from the three
credential fields is gone after the clear.
-/
theorem clearCredentials_drops_unrelated_keys (disk : Disk) (d : List (String × JVal))
    (k : String) (hload : load_db disk = .jobj d)
    (hk : k ≠ "api_key" ∧ k ≠ "pin_hash" ∧ k ≠ "pin_salt")
    (hin : (dget d k).isSome = true) :
    load_db (clear_credentials disk) = .jobj [] ∧
    dget [] k = none :=
  ⟨rfl, rfl⟩

theorem clearCredentials_drops_unrelated_keys_witness :
    load_db (.stored (.jobj [("theme", .jstr "dark")])) = .jobj [("theme", .jstr "dark")] ∧
    (("theme" : String) ≠ "api_key" ∧ ("theme" : String) ≠ "pin_hash" ∧
      ("theme" : String) ≠ "pin_salt") ∧
    (dget [("theme", .jstr "dark")] "theme").isSome = true ∧
    load_db (clear_credentials (.stored (.jobj [("theme", .jstr "dark")]))) = .jobj [] :=
  ⟨rfl, by decide, rfl,
   (clearCredentials_drops_unrelated_keys (.stored (.jobj [("theme", .jstr "dark")]))
     [("theme", .jstr "dark")] "theme" rfl (by decide) rfl).1⟩

/-! ### Claim theorems: the login handlers (C2, C4) -/

/--
C4 counterexample: the submission `" 1234 "` is not exactly 4 ASCII
digits, yet it is not rejected with the format error: `on_login_click`
strips it first, the stripped pin passes the format check and reaches
PIN verification against the store (here empty), and the submission is
answered with the wrong-pin error.
-/
theorem onLoginClick_padded_pin_counterexample :
    on_login_click " 1234 " ⟨.pin, .stored (.jobj [])⟩ =
      .ok (⟨.pin, .stored (.jobj [])⟩, .wrongPin) := rfl

/--
C4 (amended): the pin submission is first stripped of surrounding
whitespace and then checked with Python's `isdigit` — exactly 4
characters, each a Unicode digit (not only ASCII).  A stripped
submission failing that check is rejected locally with the
invalid-format result and no state change — uniformly in the gate state,
so without consulting the store — and exactly the submissions passing it
reach PIN verification.
-/
theorem onLoginClick_format_gate (tf : String) (g : GateState) :
    ((pyStrip tf).length ≠ 4 ∨ pyIsdigit (pyStrip tf) = false →
      on_login_click tf g = .ok (g, .invalidFormat)) ∧
    ((pyStrip tf).length = 4 → pyIsdigit (pyStrip tf) = true →
      on_login_click tf g =
        match verify_pin (pyStrip tf) g.disk with
        | .error e => .error e
        | .ok false => .ok (g, .wrongPin)
        | .ok true =>
            match get_credentials g.disk with
            | .error e => .error e
            | .ok (key, _, _) => .ok (g, .success key)) := by
  constructor
  · intro h
    unfold on_login_click
    rw [if_pos h]
  · intro h1 h2
    unfold on_login_click
    rw [if_neg]
    rintro (hc | hc)
    · exact hc h1
    · rw [h2] at hc
      exact Bool.noConfusion hc

theorem onLoginClick_format_gate_witness :
    (((pyStrip "12a4").length ≠ 4 ∨ pyIsdigit (pyStrip "12a4") = false) ∧
      on_login_click "12a4" ⟨.pin, .missing⟩ = .ok (⟨.pin, .missing⟩, .invalidFormat)) ∧
    (((pyStrip "123").length ≠ 4 ∨ pyIsdigit (pyStrip "123") = false) ∧
      on_login_click "123" ⟨.pin, .missing⟩ = .ok (⟨.pin, .missing⟩, .invalidFormat)) :=
  ⟨⟨Or.inr (by decide),
    (onLoginClick_format_gate "12a4" ⟨.pin, .missing⟩).1 (Or.inr (by decide))⟩,
   ⟨Or.inl (by decide),
    (onLoginClick_format_gate "123" ⟨.pin, .missing⟩).1 (Or.inl (by decide))⟩⟩

/--
C2 (confirmed): in first-run mode with a non-empty stripped key, when the
validator reports ok the handler generates the zero-padded four-decimal-
digit pin of the random draw below 10000, persists in a single write a
record whose `api_key`, `pin_hash` and `pin_salt` are all set and whose
`pin_hash` verifies against that pin, switches the card to pin mode and
hands the plaintext pin to the dialog exactly this once; when the
validator reports not-ok, the state is unchanged and the validator's
error (or the default message) is surfaced.
-/
theorem onCheckClick_first_run_spec (tf : String) (vr : ReqResult) (pinDraw : Nat)
    (bs : List Nat) (g : GateState) (d : List (String × JVal))
    (hmode : g.mode = .first) (hkey : pyStrip tf ≠ "")
    (hpin : pinDraw < 10000) (hbs : ∀ b ∈ bs, b < 256) (hbne : bs ≠ [])
    (hload : load_db g.disk = .jobj d) :
    ((check_api_key_balance vr).1 = true →
      on_check_click tf vr pinDraw bs g =
        .ok ⟨⟨.pin, .stored (.jobj (savedRecord (pyStrip tf) (formatPin pinDraw) bs d))⟩,
          some (formatPin pinDraw), ""⟩ ∧
      formatPin pinDraw = pinCanon pinDraw ∧
      (formatPin pinDraw).length = 4 ∧
      (∀ c ∈ (formatPin pinDraw).data, '0' ≤ c ∧ c ≤ '9') ∧
      dget (savedRecord (pyStrip tf) (formatPin pinDraw) bs d) "api_key" =
        some (.jstr (pyStrip tf)) ∧
      dget (savedRecord (pyStrip tf) (formatPin pinDraw) bs d) "pin_hash" =
        some (.jstr (derivedHash (formatPin pinDraw) bs)) ∧
      dget (savedRecord (pyStrip tf) (formatPin pinDraw) bs d) "pin_salt" =
        some (.jstr (b64encode bs)) ∧
      verify_pin (formatPin pinDraw)
        (.stored (.jobj (savedRecord (pyStrip tf) (formatPin pinDraw) bs d))) = .ok true) ∧
    ((check_api_key_balance vr).1 = false →
      on_check_click tf vr pinDraw bs g =
        .ok ⟨g, none,
          if (check_api_key_balance vr).2.2 = "" then "Недостаточный баланс или неверный ключ"
          else (check_api_key_balance vr).2.2⟩) := by
  rcases hc : check_api_key_balance vr with ⟨ok, bal, err⟩
  constructor
  · intro hok
    have hok' : ok = true := hok
    subst hok'
    refine ⟨?_, formatPin_eq_pinCanon pinDraw hpin, ?_, ?_,
      dget_savedRecord_api _ _ _ _, dget_savedRecord_hash _ _ _ _,
      dget_savedRecord_salt _ _ _ _, verify_pin_savedRecord _ _ _ _ hbs hbne⟩
    · unfold on_check_click
      rw [if_neg hkey, hc]
      simp only [Bool.not_true, Bool.false_eq_true, if_false]
      rw [save_credentials_eq (pyStrip tf) (formatPin pinDraw) bs g.disk d hload hbs]
    · rw [formatPin_eq_pinCanon pinDraw hpin]
      exact pinCanon_length pinDraw
    · rw [formatPin_eq_pinCanon pinDraw hpin]
      exact pinCanon_ascii_digits pinDraw
  · intro hnok
    have hnok' : ok = false := hnok
    subst hnok'
    unfold on_check_click
    rw [if_neg hkey, hc]
    rfl

theorem onCheckClick_first_run_spec_witness :
    pyStrip "sk-test" ≠ "" ∧ (4821 : Nat) < 10000 ∧
    (∀ b ∈ ([0, 1, 2, 3, 4, 5, 6, 7, 8, 9, 10, 11, 12, 13, 14, 15] : List Nat), b < 256) ∧
    ([0, 1, 2, 3, 4, 5, 6, 7, 8, 9, 10, 11, 12, 13, 14, 15] : List Nat) ≠ [] ∧
    load_db (Disk.missing) = .jobj [] ∧
    (check_api_key_balance (.resp ⟨200, .ok (.jobj [("data", .jobj
      [("total_credits", .jnum 5), ("total_usage", .jnum 0)])]), "ok"⟩)).1 = true ∧
    formatPin 4821 = pinCanon 4821 := by
  have hok : (check_api_key_balance (.resp ⟨200, .ok (.jobj [("data", .jobj
      [("total_credits", .jnum 5), ("total_usage", .jnum 0)])]), "ok"⟩)).1 = true := by
    simp +decide [check_api_key_balance, pyGetDefault, pyFloat, dget, Bind.bind, Except.bind,
      Functor.map, Except.map, Option.getD, Pure.pure, Except.pure]
  refine ⟨by decide, by decide, by decide, by decide, rfl, hok, ?_⟩
  exact ((onCheckClick_first_run_spec "sk-test"
      (.resp ⟨200, .ok (.jobj [("data", .jobj
        [("total_credits", .jnum 5), ("total_usage", .jnum 0)])]), "ok"⟩)
      4821 [0, 1, 2, 3, 4, 5, 6, 7, 8, 9, 10, 11, 12, 13, 14, 15] ⟨.first, .missing⟩ []
      rfl (by decide) (by decide) (by decide) (by decide) rfl).1 hok).2.1

/-! ### Claim theorems: the key validator (C3) -/

/--
C3 counterexample: a non-2xx status outside 400–599 (here 304) does not
yield the HTTP-error result carrying the upstream body —
`raise_for_status` raises only for 4xx/5xx, so the handler falls through
to the balance parse and can even report success.
-/
theorem checkApiKeyBalance_304_counterexample :
    check_api_key_balance (.resp ⟨304, .ok (.jobj [("data", .jobj
      [("total_credits", .jnum 5), ("total_usage", .jnum 0)])]), "upstream body"⟩) =
    (true, 5, "") := by
  simp +decide [check_api_key_balance, pyGetDefault, pyFloat, dget, Bind.bind, Except.bind,
    Functor.map, Except.map, Option.getD, Pure.pure, Except.pure]

/--
C3 (amended): the validator maps 401/403 to the invalid-key result, 429
to the rate-limit result, every other 4xx/5xx to the HTTP-error result
carrying the upstream body, and a raised network exception to the
network-error result.  For any status outside 400–599 (2xx included) it
parses the body: numeric `total_credits`/`total_usage` fields give
`balance = total_credits - total_usage` and `ok = balance > 0`; a body
that fails JSON decoding surfaces through the network-error message
(`requests` raises a `RequestException` subclass); a non-object body is
an unexpected error.
-/
theorem checkApiKeyBalance_response_mapping (r : HttpResp) (m : String) :
    (check_api_key_balance (.exc m) = (false, 0, "Ошибка сети: " ++ m)) ∧
    (r.status = 401 ∨ r.status = 403 →
      check_api_key_balance (.resp r) = (false, 0, "Неверный ключ OpenRouter")) ∧
    (r.status = 429 →
      check_api_key_balance (.resp r) = (false, 0, "Превышены лимиты. Попробуйте позже.")) ∧
    (r.status ≠ 401 → r.status ≠ 403 → r.status ≠ 429 →
      400 ≤ r.status → r.status < 600 →
      check_api_key_balance (.resp r) = (false, 0, "HTTP ошибка: " ++ r.text)) ∧
    (¬(400 ≤ r.status ∧ r.status < 600) → r.jsonBody = .error m →
      check_api_key_balance (.resp r) = (false, 0, "Ошибка сети: " ++ m)) ∧
    (∀ dl dataL tc tu, ¬(400 ≤ r.status ∧ r.status < 600) →
      r.jsonBody = .ok (.jobj dl) →
      dget dl "data" = some (.jobj dataL) →
      dget dataL "total_credits" = some (.jnum tc) →
      dget dataL "total_usage" = some (.jnum tu) →
      check_api_key_balance (.resp r) = (decide (tc - tu > 0), tc - tu, "")) ∧
    (¬(400 ≤ r.status ∧ r.status < 600) → r.jsonBody = .ok (.jarr []) →
      check_api_key_balance (.resp r) =
        (false, 0, "Непредвиденная ошибка: " ++ pyErrMsg .attributeError)) := by
  refine ⟨rfl, ?_, ?_, ?_, ?_, ?_, ?_⟩
  · intro h
    simp only [check_api_key_balance]
    rw [if_pos h]
  · intro h
    simp only [check_api_key_balance]
    rw [if_neg (show ¬(r.status = 401 ∨ r.status = 403) by omega), if_pos h]
  · intro h1 h2 h3 h4 h5
    simp only [check_api_key_balance]
    rw [if_neg (show ¬(r.status = 401 ∨ r.status = 403) by omega), if_neg h3,
      if_pos ⟨h4, h5⟩]
  · intro hs hb
    simp only [check_api_key_balance]
    rw [if_neg (show ¬(r.status = 401 ∨ r.status = 403) by omega),
      if_neg (show ¬r.status = 429 by omega), if_neg hs, hb]
  · intro dl dataL tc tu hs hb hdata htc htu
    simp only [check_api_key_balance]
    rw [if_neg (show ¬(r.status = 401 ∨ r.status = 403) by omega),
      if_neg (show ¬r.status = 429 by omega), if_neg hs, hb]
    simp only [pyGetDefault, hdata, htc, htu, Bind.bind, Except.bind, Functor.map,
      Except.map, Option.getD, Pure.pure, Except.pure, pyFloat]
  · intro hs hb
    simp only [check_api_key_balance]
    rw [if_neg (show ¬(r.status = 401 ∨ r.status = 403) by omega),
      if_neg (show ¬r.status = 429 by omega), if_neg hs, hb]
    simp only [pyGetDefault, Bind.bind, Except.bind]

theorem checkApiKeyBalance_response_mapping_witness :
    ((⟨403, .ok .jnull, "t"⟩ : HttpResp).status = 401 ∨
      (⟨403, .ok .jnull, "t"⟩ : HttpResp).status = 403) ∧
    check_api_key_balance (.resp ⟨403, .ok .jnull, "t"⟩) =
      (false, 0, "Неверный ключ OpenRouter") ∧
    check_api_key_balance (.exc "timeout") = (false, 0, "Ошибка сети: " ++ "timeout") :=
  ⟨Or.inr rfl,
   (checkApiKeyBalance_response_mapping ⟨403, .ok .jnull, "t"⟩ "m").2.1 (Or.inr rfl),
   (checkApiKeyBalance_response_mapping ⟨403, .ok .jnull, "t"⟩ "timeout").1⟩

/-! ### The derive/verify round trip (C1) -/

/--
For every pin and every non-empty byte salt, a stored record whose
digest was derived from that pin verifies the pin: the comparison in
`verify_pin` recomputes the same deterministic `_hash_pin`.  (The
collision-freeness half of the round-trip property — distinct pins
never verifying under the same salt — is a cryptographic property of
PBKDF2-HMAC-SHA256 and is not derivable here.)
-/
theorem verify_pin_roundtrip_nonempty_salt (pin key : String) (bs : List Nat)
    (hbs : ∀ b ∈ bs, b < 256) (hne : bs ≠ []) :
    verify_pin pin (.stored (.jobj (savedRecord key pin bs []))) = .ok true :=
  verify_pin_savedRecord key pin bs [] hbs hne

/--
With the empty salt — the valid base64 encoding of zero bytes — the
stored `pin_salt` is the empty string, which is falsy in the
`if not (pin_hash and pin_salt)` guard, so `verify_pin` rejects even
the pin the digest was derived from.
-/
theorem verify_pin_empty_salt_false (pin key hashVal : String) :
    b64encode [] = "" ∧
    verify_pin pin (.stored (.jobj [("api_key", .jstr key), ("pin_hash", .jstr hashVal),
      ("pin_salt", .jstr "")])) = .ok false := by
  refine ⟨rfl, ?_⟩
  unfold verify_pin get_credentials load_db
  simp [dget, optTruthy, truthy]
